import Mathlib

/-!
Shallow embedding of the Listic Fundraiser M-Pesa STK push backend
(src/server.js): the in-memory payment store, the STK push initiator
(POST /api/stk-push), the gateway callback reconciler
(POST /api/mpesa/callback) and the status poll endpoint
(GET /api/stk-status).

JSON scalar values appearing in callback metadata are modelled by
`JsVal` (strings and numbers). JavaScript object maps keyed by strings
(the payment store, the flattened metadata object) are modelled by
association lists with JavaScript assignment semantics: assignment
replaces the value at an existing key in place, otherwise appends.
Truthiness tests (`!phone`, `!amount`, `data.CheckoutRequestID`,
`description || ...`) are modelled explicitly: a missing field, the
empty string and the number 0 are falsy. The external token provider
and gateway calls made by the initiator are modelled by an
`UpstreamOutcome` parameter describing how those calls would resolve
for the request; the handler's trace records whether the token call
was reached and which payload (if any) was submitted to the gateway.
-/

namespace ListicFundraiser

/-- A JSON scalar value as it appears in gateway payloads. -/
inductive JsVal where
  | str : String → JsVal
  | num : ℚ → JsVal
deriving DecidableEq, Repr

/-- The status field of a stored payment record. -/
inductive Status where
  | pending
  | success
  | failed
  | cancelled
deriving DecidableEq, Repr

/-- A record of the payment store. The initiator writes
`{ status: 'pending' }`; the reconciler writes either the success shape
(amount, receipt, phone, date from callback metadata) or the failure
shape (message from ResultDesc). Absent JavaScript object fields are
modelled by `none`. -/
structure PaymentRecord where
  status : Status
  amount : Option JsVal
  receipt : Option JsVal
  phone : Option JsVal
  date : Option JsVal
  message : Option String
deriving DecidableEq, Repr

/-- The in-memory `paymentStore` object: a map from CheckoutRequestID
to payment record, as an association list. -/
abbrev PaymentStore := List (String × PaymentRecord)

/-- Property read `paymentStore[k]`: first binding of `k`, if any. -/
def storeGet : PaymentStore → String → Option PaymentRecord
  | [], _ => none
  | (k', v') :: rest, k => if k' = k then some v' else storeGet rest k

/-- Property write `paymentStore[k] = v`: replace in place if the key
exists, else append. -/
def storeSet : PaymentStore → String → PaymentRecord → PaymentStore
  | [], k, v => [(k, v)]
  | (k', v') :: rest, k, v =>
      if k' = k then (k, v) :: rest else (k', v') :: storeSet rest k v

/-- One entry of `CallbackMetadata.Item`: a `{ Name, Value }` pair. -/
structure MetaItem where
  name : String
  value : JsVal
deriving DecidableEq, Repr

/-- The `CallbackMetadata` object of a callback; its `Item` list may be
absent. -/
structure CallbackMetadata where
  item : Option (List MetaItem)
deriving DecidableEq, Repr

/-- The nested `Body.stkCallback` object of a gateway notification. -/
structure StkCallback where
  checkoutRequestID : String
  resultCode : Int
  resultDesc : String
  callbackMetadata : Option CallbackMetadata
deriving DecidableEq, Repr

/-- The JSON body and HTTP status the callback route responds with. -/
structure CallbackResponse where
  httpStatus : Nat
  resultCode : Int
  resultDesc : String
deriving DecidableEq, Repr

/-- Reading `meta[k]` after `CallbackMetadata?.Item?.forEach(item =>
meta[item.Name] = item.Value)`: the value of the last item named `k`,
if any (later assignments overwrite earlier ones). -/
def metaGet (items : List MetaItem) (k : String) : Option JsVal :=
  (items.filter (fun it => it.name = k)).getLast?.map MetaItem.value

/-- The item list the `forEach` iterates over: `CallbackMetadata?.Item?`
short-circuits to no iterations when either level is absent. -/
def metaItems (cb : StkCallback) : List MetaItem :=
  (cb.callbackMetadata.bind CallbackMetadata.item).getD []

/-- POST /api/mpesa/callback. `body` is `req.body?.Body?.stkCallback`
(`none` when the nested object is absent). Returns the store after the
handler and the response sent to the gateway. -/
def mpesaCallback (store : PaymentStore) (body : Option StkCallback) :
    PaymentStore × CallbackResponse :=
  match body with
  | none => (store, ⟨200, 0, "Accepted"⟩)
  | some cb =>
      if cb.resultCode = 0 then
        (storeSet store cb.checkoutRequestID
          ⟨Status.success,
           metaGet (metaItems cb) "Amount",
           metaGet (metaItems cb) "MpesaReceiptNumber",
           metaGet (metaItems cb) "PhoneNumber",
           metaGet (metaItems cb) "TransactionDate",
           none⟩,
         ⟨200, 0, "Accepted"⟩)
      else
        (storeSet store cb.checkoutRequestID
          ⟨(if cb.resultCode = 1032 then Status.cancelled else Status.failed),
           none, none, none, none, some cb.resultDesc⟩,
         ⟨200, 0, "Accepted"⟩)

/-- The body of a POST /api/stk-push request after destructuring
`{ phone, amount, description }`. Per the contract, `amount` is a
number and the other fields are strings; a missing field is `none`. -/
structure StkPushRequest where
  phone : Option String
  amount : Option ℚ
  description : Option String
deriving DecidableEq, Repr

/-- JavaScript truthiness of an optional string field: absent and `""`
are falsy. -/
def truthyStr : Option String → Bool
  | none => false
  | some s => ¬ s = ""

/-- JavaScript truthiness of an optional numeric field: absent and `0`
are falsy. -/
def truthyNum : Option ℚ → Bool
  | none => false
  | some q => ¬ q = 0

/-- JavaScript `x || fb` for an optional string `x`: an absent value
and the empty string are falsy and fall back to `fb`. -/
def jsOrStr : Option String → String → String
  | none, fb => fb
  | some m, fb => if m = "" then fb else m

/-- The payload the initiator posts to the gateway STK push endpoint. -/
structure StkPayload where
  businessShortCode : String
  password : String
  timestamp : String
  transactionType : String
  amount : Int
  partyA : String
  partyB : String
  phoneNumber : String
  callBackURL : String
  accountReference : String
  transactionDesc : String
deriving DecidableEq, Repr

/-- The gateway acknowledgment body (`data` of the axios post); only
`CheckoutRequestID` is inspected by the handler, the rest is forwarded
verbatim and kept opaque here as `responseDescription`. A missing
`CheckoutRequestID` key is `none`. -/
structure DarajaAck where
  checkoutRequestID : Option String
  responseDescription : Option String
deriving DecidableEq, Repr

/-- How the two external calls of the initiator (token acquisition,
gateway submission) resolve for this request. `tokenFail` and
`submitFail` carry `err?.response?.data?.errorMessage` of the thrown
error (`none` when the error has no such body). -/
inductive UpstreamOutcome where
  | tokenFail : Option String → UpstreamOutcome
  | submitFail : Option String → UpstreamOutcome
  | ok : DarajaAck → UpstreamOutcome
deriving DecidableEq, Repr

/-- The response of POST /api/stk-push: 400 with `errorMessage`, 500
with `errorMessage`, or 200 forwarding the gateway acknowledgment. -/
inductive StkPushResponse where
  | badRequest : String → StkPushResponse
  | serverError : String → StkPushResponse
  | ok : DarajaAck → StkPushResponse
deriving DecidableEq, Repr

/-- Everything observable about one run of the stk-push handler: the
store afterwards, the HTTP response, whether the token provider was
called, and the payload submitted to the gateway (`none` when the
submission call was never reached). -/
structure StkPushTrace where
  store : PaymentStore
  response : StkPushResponse
  tokenRequested : Bool
  submitted : Option StkPayload
deriving DecidableEq, Repr

/-- POST /api/stk-push. `shortcode` and `callbackURL` are the SHORTCODE
and CALLBACK_URL environment values; `timestamp` and `password` are the
pair produced by getTimestampAndPassword (opaque envelope builder). -/
def stkPush (shortcode callbackURL timestamp password : String)
    (store : PaymentStore) (req : StkPushRequest)
    (upstream : UpstreamOutcome) : StkPushTrace :=
  if truthyStr req.phone && truthyNum req.amount then
    let p := req.phone.getD ""
    let q := req.amount.getD 0
    let desc :=
      match req.description with
      | some d => if d = "" then "Dominic Oyagi – Mathare Hospital Fund" else d
      | none => "Dominic Oyagi – Mathare Hospital Fund"
    let payload : StkPayload :=
      ⟨shortcode, password, timestamp, "CustomerBuyGoodsOnline",
       Int.ceil q, p, shortcode, p, callbackURL, "DominicOyagi", desc⟩
    match upstream with
    | UpstreamOutcome.tokenFail e =>
        ⟨store,
         StkPushResponse.serverError (jsOrStr e "STK push failed. Please try again."),
         true, none⟩
    | UpstreamOutcome.submitFail e =>
        ⟨store,
         StkPushResponse.serverError (jsOrStr e "STK push failed. Please try again."),
         true, some payload⟩
    | UpstreamOutcome.ok d =>
        ⟨(match d.checkoutRequestID with
          | some cid =>
              if cid = "" then store
              else storeSet store cid ⟨Status.pending, none, none, none, none, none⟩
          | none => store),
         StkPushResponse.ok d, true, some payload⟩
  else
    ⟨store, StkPushResponse.badRequest "phone and amount are required",
     false, none⟩

/-- The response of GET /api/stk-status: 400 with `error`, or 200 with
the record (stored or synthesized). -/
inductive StatusResponse where
  | badRequest : String → StatusResponse
  | ok : PaymentRecord → StatusResponse
deriving DecidableEq, Repr

/-- GET /api/stk-status?checkoutId=... . `checkoutId` is the query
parameter (`none` when absent; query parameters are strings). Returns
the store after the handler (to make non-mutation statable) and the
response. -/
def stkStatus (store : PaymentStore) (checkoutId : Option String) :
    PaymentStore × StatusResponse :=
  match checkoutId with
  | none => (store, StatusResponse.badRequest "checkoutId required")
  | some cid =>
      if cid = "" then (store, StatusResponse.badRequest "checkoutId required")
      else
        (store,
         StatusResponse.ok
           ((storeGet store cid).getD ⟨Status.pending, none, none, none, none, none⟩))

theorem storeGet_storeSet_self (s : PaymentStore) (k : String) (v : PaymentRecord) :
    storeGet (storeSet s k v) k = some v := by
  induction s with
  | nil => simp [storeSet, storeGet]
  | cons hd tl ih =>
      by_cases h : hd.1 = k
      · simp [storeSet, storeGet, h]
      · simp [storeSet, storeGet, h, ih]

theorem truthyStr_none : truthyStr none = false := rfl

theorem truthyNum_none : truthyNum none = false := rfl

/-- Claim C1: for every inbound notification whose nested result object
is present and whose result code equals 0, the callback handler writes
under the notification's CheckoutRequestID a record with status
`success` whose amount, receipt, payer phone and settlement time fields
are the flattened values of the notification's metadata items. -/
theorem c1_success_record (store : PaymentStore) (cb : StkCallback)
    (h0 : cb.resultCode = 0) :
    storeGet (mpesaCallback store (some cb)).1 cb.checkoutRequestID =
      some ⟨Status.success,
            metaGet (metaItems cb) "Amount",
            metaGet (metaItems cb) "MpesaReceiptNumber",
            metaGet (metaItems cb) "PhoneNumber",
            metaGet (metaItems cb) "TransactionDate",
            none⟩ := by
  simp [mpesaCallback, h0, storeGet_storeSet_self]

def cbC1 : StkCallback :=
  ⟨"ws_1", 0, "The service request is processed successfully.",
   some ⟨some [⟨"Amount", JsVal.num 11⟩,
               ⟨"MpesaReceiptNumber", JsVal.str "ABC123"⟩,
               ⟨"PhoneNumber", JsVal.str "254700000000"⟩,
               ⟨"TransactionDate", JsVal.num 20251011120000⟩]⟩⟩

theorem c1_success_record_witness :
    storeGet (mpesaCallback [] (some cbC1)).1 "ws_1" =
      some ⟨Status.success, some (JsVal.num 11), some (JsVal.str "ABC123"),
            some (JsVal.str "254700000000"), some (JsVal.num 20251011120000),
            none⟩ := by
  have h := c1_success_record [] cbC1 rfl
  simpa [cbC1, metaItems, metaGet] using h

/-- Claim C2: for every inbound notification whose nested result object
is present and whose result code is non-zero, the callback handler
writes under the CheckoutRequestID a record whose status is `cancelled`
when the result code is 1032 and `failed` otherwise, with the
notification's ResultDesc as its message. -/
theorem c2_failure_record (store : PaymentStore) (cb : StkCallback)
    (h : cb.resultCode ≠ 0) :
    storeGet (mpesaCallback store (some cb)).1 cb.checkoutRequestID =
      some ⟨(if cb.resultCode = 1032 then Status.cancelled else Status.failed),
            none, none, none, none, some cb.resultDesc⟩ := by
  simp [mpesaCallback, h, storeGet_storeSet_self]

theorem c2_failure_record_witness :
    storeGet (mpesaCallback []
        (some ⟨"ws_2", 1032, "Request cancelled by user", none⟩)).1 "ws_2" =
      some ⟨Status.cancelled, none, none, none, none,
            some "Request cancelled by user"⟩ := by
  have h := c2_failure_record [] ⟨"ws_2", 1032, "Request cancelled by user", none⟩
    (by decide)
  simpa using h

/-- Claim C3 counterexample: the callback handler overwrites
unconditionally, so a record already in the terminal state `success`
is moved to the terminal state `cancelled` by a second notification
for the same identifier — the claimed at-most-once transition fails. -/
theorem c3_counterexample :
    (storeGet (mpesaCallback [] (some ⟨"ws_1", 0, "ok", none⟩)).1 "ws_1").map
        PaymentRecord.status = some Status.success ∧
    (storeGet (mpesaCallback (mpesaCallback [] (some ⟨"ws_1", 0, "ok", none⟩)).1
          (some ⟨"ws_1", 1032, "Request cancelled by user", none⟩)).1 "ws_1").map
        PaymentRecord.status = some Status.cancelled := by
  exact ⟨rfl, rfl⟩

/-- Claim C3 (amended): the reconciler resolves every notification by
last-write-wins — after processing a notification, the stored status
under its identifier is determined solely by that notification's result
code (success for 0, cancelled for 1032, failed otherwise), regardless
of any record previously stored, terminal or not. -/
theorem c3_last_write_wins (store : PaymentStore) (cb : StkCallback) :
    (storeGet (mpesaCallback store (some cb)).1 cb.checkoutRequestID).map
        PaymentRecord.status =
      some (if cb.resultCode = 0 then Status.success
            else if cb.resultCode = 1032 then Status.cancelled
            else Status.failed) := by
  by_cases h0 : cb.resultCode = 0 <;>
    by_cases h1 : cb.resultCode = 1032 <;>
      simp [mpesaCallback, h0, h1, storeGet_storeSet_self]

/-- Claim C4: a notification whose body lacks the nested stkCallback
object is answered with HTTP 200 and the fixed acknowledgment
ResultCode 0 / ResultDesc "Accepted", and the store is unchanged. -/
theorem c4_malformed_acknowledged (store : PaymentStore) :
    mpesaCallback store none = (store, ⟨200, 0, "Accepted"⟩) := rfl

/-- Claim C10: a notification with result code 0 but no metadata item
list still writes a `success` record (its other success fields absent)
under the CheckoutRequestID and returns the fixed acknowledgment. -/
theorem c10_success_without_metadata (store : PaymentStore) (cb : StkCallback)
    (h0 : cb.resultCode = 0)
    (hm : cb.callbackMetadata.bind CallbackMetadata.item = none) :
    mpesaCallback store (some cb) =
      (storeSet store cb.checkoutRequestID
        ⟨Status.success, none, none, none, none, none⟩,
       ⟨200, 0, "Accepted"⟩) := by
  simp [mpesaCallback, h0, metaItems, hm, metaGet]

theorem c10_success_without_metadata_witness :
    mpesaCallback [] (some ⟨"ws_3", 0, "ok", none⟩) =
      ([("ws_3", ⟨Status.success, none, none, none, none, none⟩)],
       ⟨200, 0, "Accepted"⟩) := by
  have h := c10_success_without_metadata [] ⟨"ws_3", 0, "ok", none⟩ rfl rfl
  simpa [storeSet] using h

/-- Claim C5: a status poll with a (non-empty) checkoutId that is not a
key of the store returns the synthesized pending record with a
non-error response and leaves the store unchanged. -/
theorem c5_unknown_id_pending (store : PaymentStore) (cid : String)
    (hne : cid ≠ "") (hnk : storeGet store cid = none) :
    stkStatus store (some cid) =
      (store, StatusResponse.ok ⟨Status.pending, none, none, none, none, none⟩) := by
  simp [stkStatus, hne, hnk]

theorem c5_unknown_id_pending_witness :
    stkStatus [] (some "ws_9") =
      ([], StatusResponse.ok ⟨Status.pending, none, none, none, none, none⟩) := by
  exact c5_unknown_id_pending [] "ws_9" (by decide) rfl

/-- Claim C6: an initiation request missing phone or amount is answered
with the 400 validation error; the token provider is not called, no
payload is submitted to the gateway, and the store is unchanged. -/
theorem c6_missing_field_rejected
    (shortcode callbackURL timestamp password : String)
    (store : PaymentStore) (req : StkPushRequest) (upstream : UpstreamOutcome)
    (h : req.phone = none ∨ req.amount = none) :
    stkPush shortcode callbackURL timestamp password store req upstream =
      ⟨store, StkPushResponse.badRequest "phone and amount are required",
       false, none⟩ := by
  rcases h with h | h <;> simp [stkPush, truthyStr, truthyNum, h]

theorem c6_missing_field_rejected_witness :
    stkPush "174379" "https://example.com/api/mpesa/callback" "20251011120000"
        "pw" [] ⟨some "254700000000", none, none⟩
        (UpstreamOutcome.ok ⟨some "ws_1", none⟩) =
      ⟨[], StkPushResponse.badRequest "phone and amount are required",
       false, none⟩ := by
  exact c6_missing_field_rejected "174379" "https://example.com/api/mpesa/callback"
    "20251011120000" "pw" [] ⟨some "254700000000", none, none⟩
    (UpstreamOutcome.ok ⟨some "ws_1", none⟩) (Or.inr rfl)

/-- Claim C7: when token acquisition or gateway submission fails for a
request that passed validation, the handler answers with the 500 error
whose message is the error body's errorMessage when that is present as
a truthy (non-empty) string and the fixed fallback otherwise (the code
computes `errorMessage || fallback`, so an empty-string errorMessage
also falls back), and the store is unchanged (no record is created for
the attempt). -/
theorem c7_upstream_failure
    (shortcode callbackURL timestamp password : String)
    (store : PaymentStore) (req : StkPushRequest) (upstream : UpstreamOutcome)
    (e : Option String)
    (hp : truthyStr req.phone = true) (ha : truthyNum req.amount = true)
    (hu : upstream = UpstreamOutcome.tokenFail e ∨
          upstream = UpstreamOutcome.submitFail e) :
    (stkPush shortcode callbackURL timestamp password store req upstream).response =
        StkPushResponse.serverError (jsOrStr e "STK push failed. Please try again.") ∧
    (stkPush shortcode callbackURL timestamp password store req upstream).store =
        store := by
  rcases hu with hu | hu <;> subst hu <;> simp [stkPush, hp, ha]

theorem c7_upstream_failure_witness :
    (stkPush "174379" "https://example.com/api/mpesa/callback" "20251011120000"
        "pw" [] ⟨some "254700000000", some 10, none⟩
        (UpstreamOutcome.submitFail (some "Invalid Access Token"))).response =
        StkPushResponse.serverError "Invalid Access Token" ∧
    (stkPush "174379" "https://example.com/api/mpesa/callback" "20251011120000"
        "pw" [] ⟨some "254700000000", some 10, none⟩
        (UpstreamOutcome.submitFail (some "Invalid Access Token"))).store = [] := by
  have h := c7_upstream_failure "174379" "https://example.com/api/mpesa/callback"
    "20251011120000" "pw" [] ⟨some "254700000000", some 10, none⟩
    (UpstreamOutcome.submitFail (some "Invalid Access Token"))
    (some "Invalid Access Token") (by decide) (by decide) (Or.inr rfl)
  simpa [jsOrStr] using h

/-- Claim C8: whenever the initiator submits a payload to the gateway
for a request whose amount field is the number q, the submitted Amount
is the ceiling of q (the caller-supplied amount rounded up to the
nearest integer). -/
theorem c8_amount_ceiled
    (shortcode callbackURL timestamp password : String)
    (store : PaymentStore) (req : StkPushRequest) (upstream : UpstreamOutcome)
    (q : ℚ) (p : StkPayload)
    (ha : req.amount = some q)
    (hs : (stkPush shortcode callbackURL timestamp password store req upstream).submitted =
          some p) :
    p.amount = Int.ceil q := by
  by_cases hc : (truthyStr req.phone && truthyNum req.amount) = true
  · cases upstream with
    | tokenFail e => simp [stkPush, hc] at hs
    | submitFail e =>
        simp [stkPush, hc] at hs
        simp [← hs, ha]
    | ok d =>
        simp [stkPush, hc] at hs
        simp [← hs, ha]
  · simp [stkPush, hc] at hs

def payloadC8 : StkPayload :=
  ⟨"174379", "pw", "20251011120000", "CustomerBuyGoodsOnline", 11,
   "254700000000", "174379", "254700000000",
   "https://example.com/api/mpesa/callback", "DominicOyagi",
   "Dominic Oyagi – Mathare Hospital Fund"⟩

theorem c8_amount_ceiled_witness :
    payloadC8.amount = Int.ceil ((52 : ℚ) / 5) ∧ payloadC8.amount = 11 := by
  constructor
  · exact c8_amount_ceiled "174379" "https://example.com/api/mpesa/callback"
      "20251011120000" "pw" [] ⟨some "254700000000", some ((52 : ℚ) / 5), none⟩
      (UpstreamOutcome.ok ⟨some "ws_1", none⟩) ((52 : ℚ) / 5) payloadC8 rfl
      (by simp [stkPush, truthyStr, truthyNum, payloadC8]; norm_num [Int.ceil_eq_iff])
  · rfl

/-- Claim C9: an initiation request whose phone and amount fields are
both present but with amount 0 or phone the empty string is rejected
exactly as a missing field would be: 400 response, no token call, no
gateway submission, store unchanged. -/
theorem c9_falsy_field_rejected
    (shortcode callbackURL timestamp password : String)
    (store : PaymentStore) (req : StkPushRequest) (upstream : UpstreamOutcome)
    (hb : req.phone.isSome ∧ req.amount.isSome)
    (h : req.amount = some 0 ∨ req.phone = some "") :
    stkPush shortcode callbackURL timestamp password store req upstream =
      ⟨store, StkPushResponse.badRequest "phone and amount are required",
       false, none⟩ := by
  rcases h with h | h <;> simp [stkPush, truthyStr, truthyNum, h]

theorem c9_falsy_field_rejected_witness :
    stkPush "174379" "https://example.com/api/mpesa/callback" "20251011120000"
        "pw" [] ⟨some "254700000000", some 0, none⟩
        (UpstreamOutcome.ok ⟨some "ws_1", none⟩) =
      ⟨[], StkPushResponse.badRequest "phone and amount are required",
       false, none⟩ := by
  exact c9_falsy_field_rejected "174379" "https://example.com/api/mpesa/callback"
    "20251011120000" "pw" [] ⟨some "254700000000", some 0, none⟩
    (UpstreamOutcome.ok ⟨some "ws_1", none⟩) (by simp) (Or.inl rfl)

end ListicFundraiser
